import Mathlib

/-!
# Serial link to the M8: device matching, connection slot, command frames

A shallow embedding of `src/serial.c` (the libserialport branch, lines 66-314).

* The process-wide `m8_port` pointer is the single field of `State`;
  `NULL` is `none`.
* libserialport is an outside collaborator.  Its answers are the fields of
  `Transport`; every call the code makes that can change the outside world is
  recorded, in order, in the `calls` of the returned `Ret`.  The pure getters
  (`sp_get_port_transport`, `sp_get_port_usb_vid_pid`, `sp_get_port_name`) read
  the fields of a port descriptor and are not recorded.
* `sp_copy_port(port, &m8_port)` stores a copy of the descriptor in `m8_port`.
* `abort()` and the `strcmp` against the name of a `NULL` port are the two ways
  a call can fail to return; they are the two values of `Fault`.
* `SDL_Log*` only writes messages and is left out.
-/

namespace Serial

/-! ## Data model -/

/-- Values of `enum sp_transport` (libserialport.h). -/
inductive sp_transport where
  | SP_TRANSPORT_NATIVE
  | SP_TRANSPORT_USB
  | SP_TRANSPORT_BLUETOOTH
  deriving DecidableEq, Repr

/-- What the code reads of a `struct sp_port`: its name (`sp_get_port_name`), its
transport kind (`sp_get_port_transport`) and, for a USB port, the values that
`sp_get_port_usb_vid_pid` stores in `usb_vid` and `usb_pid`. -/
structure sp_port where
  name : String
  transport : sp_transport
  usb_vid : Int
  usb_pid : Int
  deriving DecidableEq, Repr

/-- Value `SP_OK` of `enum sp_return`. -/
def SP_OK : Int := 0
/-- Value `SP_ERR_ARG` of `enum sp_return`. -/
def SP_ERR_ARG : Int := -1
/-- Value `SP_ERR_FAIL` of `enum sp_return`. -/
def SP_ERR_FAIL : Int := -2
/-- Value `SP_ERR_MEM` of `enum sp_return`. -/
def SP_ERR_MEM : Int := -3
/-- Value `SP_ERR_SUPP` of `enum sp_return`. -/
def SP_ERR_SUPP : Int := -4

/-- Value `SP_MODE_READ_WRITE` of `enum sp_mode`. -/
def SP_MODE_READ_WRITE : Nat := 3
/-- Value `SP_PARITY_NONE` of `enum sp_parity`. -/
def SP_PARITY_NONE : Int := 0
/-- Value `SP_FLOWCONTROL_NONE` of `enum sp_flowcontrol`. -/
def SP_FLOWCONTROL_NONE : Int := 0

/-- The calls into libserialport that the code makes, with their arguments.
A port argument that may be `NULL` is an `Option`. -/
inductive Call where
  | sp_list_ports
  | sp_free_port_list
  | sp_copy_port (port : sp_port)
  | sp_open (port : sp_port) (mode : Nat)
  | sp_set_baudrate (port : sp_port) (baudrate : Int)
  | sp_set_bits (port : sp_port) (bits : Int)
  | sp_set_parity (port : sp_port) (parity : Int)
  | sp_set_stopbits (port : sp_port) (stopbits : Int)
  | sp_set_flowcontrol (port : sp_port) (flowcontrol : Int)
  | sp_close (port : sp_port)
  | sp_free_port (port : sp_port)
  | sp_blocking_write (port : Option sp_port) (buf : List Nat) (count : Nat) (timeout_ms : Nat)
  | sp_nonblocking_read (port : Option sp_port) (count : Int)
  deriving DecidableEq, Repr

/-- The answers of libserialport.  `sp_list_ports` is the enumerated list, or
`none` when the enumeration call does not return `SP_OK`; the other fields give
the value each call returns for its arguments. -/
structure Transport where
  sp_list_ports : Option (List sp_port)
  sp_open : sp_port → Nat → Int
  sp_set_baudrate : sp_port → Int → Int
  sp_set_bits : sp_port → Int → Int
  sp_set_parity : sp_port → Int → Int
  sp_set_stopbits : sp_port → Int → Int
  sp_set_flowcontrol : sp_port → Int → Int
  sp_blocking_write : Option sp_port → List Nat → Nat → Nat → Int
  sp_nonblocking_read : Option sp_port → Int → Int

/-- The global of `serial.c`: `struct sp_port *m8_port`. -/
structure State where
  m8_port : Option sp_port
  deriving DecidableEq, Repr

/-- Line 70: `struct sp_port *m8_port = NULL;`. -/
def initial_state : State := { m8_port := none }

/-- The ways a call does not return. -/
inductive Fault where
  | abort
  | strcmp_null
  deriving DecidableEq, Repr

/-- What a call leaves behind: the returned `int`, the global state and the
libserialport calls made, in order. -/
structure Ret where
  value : Int
  state : State
  calls : List Call
  deriving DecidableEq, Repr

/-- The conversion of an `int` to `size_t` (64 bits) that `result != nbytes`
performs before comparing. -/
def size_t_of_int (x : Int) : Int := x % 2 ^ 64

/-- The range of `int`. -/
def is_int (x : Int) : Prop := -(2 ^ 31) ≤ x ∧ x < 2 ^ 31

instance (x : Int) : Decidable (is_int x) := by unfold is_int; infer_instance

/-! ## Operations -/

/-- Lines 75-89. -/
def detect_m8_serial_device (port : sp_port) : Int :=
  if port.transport = sp_transport.SP_TRANSPORT_USB then
    if port.usb_vid = 0x16C0 ∧ port.usb_pid = 0x048A then 1 else 0
  else 0

/-- Lines 209-233: `check` logs and returns its argument. -/
def check (result : Int) : Int := result

/-- The loop of `check_serial_port`, lines 125-132, from the current value of
`device_found`.  `sp_get_port_name(m8_port)` is `NULL` for a `NULL` port, and
`strcmp` with a `NULL` argument is undefined. -/
def check_serial_port_loop (m8_port : Option sp_port) : List sp_port → Int → Except Fault Int
  | [], device_found => .ok device_found
  | port :: rest, device_found =>
    if detect_m8_serial_device port ≠ 0 then
      match m8_port with
      | none => .error Fault.strcmp_null
      | some held =>
        if port.name = held.name then check_serial_port_loop m8_port rest 1
        else check_serial_port_loop m8_port rest device_found
    else check_serial_port_loop m8_port rest device_found

/-- Lines 112-136. -/
def check_serial_port (tr : Transport) (st : State) : Except Fault Ret :=
  match tr.sp_list_ports with
  | none => .error Fault.abort
  | some port_list =>
    match check_serial_port_loop st.m8_port port_list 0 with
    | .error f => .error f
    | .ok device_found =>
      .ok ⟨device_found, st, [Call.sp_list_ports, Call.sp_free_port_list]⟩

/-- The loop of `init_serial`, lines 156-168, from the current value of
`m8_port`: the new value of `m8_port` and the `sp_copy_port` calls made. -/
def init_serial_loop (preferred_device : Option String) :
    List sp_port → Option sp_port → Option sp_port × List Call
  | [], m8_port => (m8_port, [])
  | port :: rest, m8_port =>
    if detect_m8_serial_device port ≠ 0 then
      if preferred_device = some port.name then
        (some port, [Call.sp_copy_port port])
      else
        let r := init_serial_loop preferred_device rest (some port)
        (r.1, Call.sp_copy_port port :: r.2)
    else init_serial_loop preferred_device rest m8_port

/-- Lines 172-206, for a non-`NULL` `m8_port`: open, then the five settings, each
checked; `pre` is the calls made before. -/
def open_and_configure (tr : Transport) (port : sp_port) (pre : List Call) : Ret :=
  let st : State := { m8_port := some port }
  let c1 := pre ++ [Call.sp_open port SP_MODE_READ_WRITE]
  if check (tr.sp_open port SP_MODE_READ_WRITE) ≠ SP_OK then ⟨0, st, c1⟩ else
  let c2 := c1 ++ [Call.sp_set_baudrate port 115200]
  if check (tr.sp_set_baudrate port 115200) ≠ SP_OK then ⟨0, st, c2⟩ else
  let c3 := c2 ++ [Call.sp_set_bits port 8]
  if check (tr.sp_set_bits port 8) ≠ SP_OK then ⟨0, st, c3⟩ else
  let c4 := c3 ++ [Call.sp_set_parity port SP_PARITY_NONE]
  if check (tr.sp_set_parity port SP_PARITY_NONE) ≠ SP_OK then ⟨0, st, c4⟩ else
  let c5 := c4 ++ [Call.sp_set_stopbits port 1]
  if check (tr.sp_set_stopbits port 1) ≠ SP_OK then ⟨0, st, c5⟩ else
  let c6 := c5 ++ [Call.sp_set_flowcontrol port SP_FLOWCONTROL_NONE]
  if check (tr.sp_set_flowcontrol port SP_FLOWCONTROL_NONE) ≠ SP_OK then ⟨0, st, c6⟩ else
  ⟨1, st, c6⟩

/-- Lines 138-207.  `verbose` only selects log messages. -/
def init_serial (tr : Transport) (verbose : Int) (preferred_device : Option String)
    (st : State) : Except Fault Ret :=
  match st.m8_port with
  | some _ => .ok ⟨1, st, []⟩
  | none =>
    match tr.sp_list_ports with
    | none => .error Fault.abort
    | some port_list =>
      let r := init_serial_loop preferred_device port_list st.m8_port
      let pre := [Call.sp_list_ports] ++ r.2 ++ [Call.sp_free_port_list]
      match r.1 with
      | some port => .ok (open_and_configure tr port pre)
      | none => .ok ⟨0, { m8_port := none }, pre⟩

/-- Lines 235-242. -/
def close_serial_port (st : State) : Ret :=
  match st.m8_port with
  | some port => ⟨0, { m8_port := none }, [Call.sp_close port, Call.sp_free_port port]⟩
  | none => ⟨0, st, []⟩

/-- Lines 244-254. -/
def reset_display (tr : Transport) (st : State) : Ret :=
  let buf : List Nat := ['R'.toNat]
  let result := tr.sp_blocking_write st.m8_port buf 1 5
  if result ≠ 1 then ⟨0, st, [Call.sp_blocking_write st.m8_port buf 1 5]⟩
  else ⟨1, st, [Call.sp_blocking_write st.m8_port buf 1 5]⟩

/-- Lines 256-270. -/
def enable_and_reset_display (tr : Transport) (st : State) : Ret :=
  let buf : List Nat := ['E'.toNat]
  let result := tr.sp_blocking_write st.m8_port buf 1 5
  if result ≠ 1 then ⟨0, st, [Call.sp_blocking_write st.m8_port buf 1 5]⟩
  else
    let r := reset_display tr st
    ⟨r.value, r.state, Call.sp_blocking_write st.m8_port buf 1 5 :: r.calls⟩

/-- Lines 272-285. -/
def disconnect (tr : Transport) (st : State) : Ret :=
  let buf : List Nat := ['D'.toNat]
  let result := tr.sp_blocking_write st.m8_port buf 1 5
  let result := if result ≠ 1 then 0 else result
  let c := close_serial_port st
  ⟨result, c.state, Call.sp_blocking_write st.m8_port buf 1 5 :: c.calls⟩

/-- Lines 287-289.  The bytes stored in `serial_buf` are not modelled, only the
returned count. -/
def serial_read (tr : Transport) (st : State) (count : Int) : Ret :=
  ⟨tr.sp_nonblocking_read st.m8_port count, st, [Call.sp_nonblocking_read st.m8_port count]⟩

/-- Lines 291-300.  `input` is a `uint8_t`. -/
def send_msg_controller (tr : Transport) (st : State) (input : Nat) : Ret :=
  let input := input % 256
  let buf : List Nat := ['C'.toNat, input]
  let nbytes : Nat := 2
  let result := tr.sp_blocking_write st.m8_port buf nbytes 5
  if size_t_of_int result ≠ (nbytes : Int) then
    ⟨-1, st, [Call.sp_blocking_write st.m8_port buf nbytes 5]⟩
  else ⟨1, st, [Call.sp_blocking_write st.m8_port buf nbytes 5]⟩

/-- Lines 302-314.  `note` and `velocity` are `uint8_t`. -/
def send_msg_keyjazz (tr : Transport) (st : State) (note velocity : Nat) : Ret :=
  let note := note % 256
  let velocity := velocity % 256
  let velocity := if velocity > 0x7F then 0x7F else velocity
  let buf : List Nat := ['K'.toNat, note, velocity]
  let nbytes : Nat := 3
  let result := tr.sp_blocking_write st.m8_port buf nbytes 5
  if size_t_of_int result ≠ (nbytes : Int) then
    ⟨-1, st, [Call.sp_blocking_write st.m8_port buf nbytes 5]⟩
  else ⟨1, st, [Call.sp_blocking_write st.m8_port buf nbytes 5]⟩

/-! ## Concrete ports and transports -/

/-- An M8 on the first ACM device node. -/
def portA : sp_port := ⟨"/dev/ttyACM0", sp_transport.SP_TRANSPORT_USB, 0x16C0, 0x048A⟩
/-- A second M8. -/
def portB : sp_port := ⟨"/dev/ttyACM1", sp_transport.SP_TRANSPORT_USB, 0x16C0, 0x048A⟩
/-- A USB serial adapter that is not an M8. -/
def portFtdi : sp_port := ⟨"/dev/ttyUSB0", sp_transport.SP_TRANSPORT_USB, 0x0403, 0x6001⟩
/-- A native port that carries the M8 IDs. -/
def portNative : sp_port := ⟨"/dev/ttyS0", sp_transport.SP_TRANSPORT_NATIVE, 0x16C0, 0x048A⟩

/-- A transport that enumerates `ports`, answers `sp_open` with `open_result`,
accepts every setting, answers a write on a port with `written buf` and a read on
a port with 0 bytes, and answers a write or read on a `NULL` port with
`SP_ERR_ARG`, as libserialport does. -/
def transportOf (ports : List sp_port) (open_result : Int) (written : List Nat → Int) :
    Transport where
  sp_list_ports := some ports
  sp_open := fun _ _ => open_result
  sp_set_baudrate := fun _ _ => SP_OK
  sp_set_bits := fun _ _ => SP_OK
  sp_set_parity := fun _ _ => SP_OK
  sp_set_stopbits := fun _ _ => SP_OK
  sp_set_flowcontrol := fun _ _ => SP_OK
  sp_blocking_write := fun port buf _ _ =>
    match port with
    | none => SP_ERR_ARG
    | some _ => written buf
  sp_nonblocking_read := fun port _ =>
    match port with
    | none => SP_ERR_ARG
    | some _ => 0

/-- Every write is complete. -/
def writtenAll (buf : List Nat) : Int := buf.length

/-- The Enable frame is not written, every other frame is written whole. -/
def writtenButEnable (buf : List Nat) : Int :=
  if buf = ['E'.toNat] then 0 else buf.length

/-! ## Lemmas -/

theorem open_and_configure_state (tr : Transport) (port : sp_port) (pre : List Call) :
    (open_and_configure tr port pre).state.m8_port = some port := by
  unfold open_and_configure
  simp only []
  split_ifs <;> rfl

theorem size_t_of_int_eq_iff (x n : Int) (hx : is_int x) (hn0 : 0 ≤ n) (hn : n < 2 ^ 31) :
    size_t_of_int x = n ↔ x = n := by
  unfold size_t_of_int
  unfold is_int at hx
  constructor
  · intro h
    omega
  · intro h
    subst h
    omega

/-- Without a preferred device the loop of `init_serial` ends with the last
matching port of the list in `m8_port`, or with `m8_port` as it was when no port
matches. -/
theorem init_serial_loop_no_preferred (l : List sp_port) (m8_port : Option sp_port) :
    (init_serial_loop none l m8_port).1 =
      ((l.filter (fun p => decide (detect_m8_serial_device p ≠ 0))).getLast?).or m8_port := by
  induction l generalizing m8_port with
  | nil => simp [init_serial_loop]
  | cons port rest ih =>
    by_cases hm : detect_m8_serial_device port ≠ 0
    · have hf : (port :: rest).filter (fun p => decide (detect_m8_serial_device p ≠ 0)) =
          port :: rest.filter (fun p => decide (detect_m8_serial_device p ≠ 0)) :=
        List.filter_cons_of_pos (by simpa using hm)
      rw [hf, List.getLast?_cons]
      unfold init_serial_loop
      rw [if_pos hm, if_neg (by simp)]
      show (init_serial_loop none rest (some port)).1 = _
      rw [ih (some port)]
      cases (rest.filter (fun p => decide (detect_m8_serial_device p ≠ 0))).getLast? <;> rfl
    · have hf : (port :: rest).filter (fun p => decide (detect_m8_serial_device p ≠ 0)) =
          rest.filter (fun p => decide (detect_m8_serial_device p ≠ 0)) :=
        List.filter_cons_of_neg (by simpa using hm)
      rw [hf]
      unfold init_serial_loop
      rw [if_neg hm]
      exact ih m8_port

/-- With a preferred device the loop of `init_serial` stops at the first
matching port that has the preferred name: it copies the matching ports before
it and that port, and nothing after. -/
theorem init_serial_loop_preferred (p : String) (pre post : List sp_port) (q : sp_port)
    (m8_port : Option sp_port)
    (hq : detect_m8_serial_device q ≠ 0) (hn : q.name = p)
    (hpre : ∀ x ∈ pre, detect_m8_serial_device x ≠ 0 → x.name ≠ p) :
    init_serial_loop (some p) (pre ++ q :: post) m8_port =
      (some q,
        (pre.filter (fun x => decide (detect_m8_serial_device x ≠ 0))).map Call.sp_copy_port ++
          [Call.sp_copy_port q]) := by
  induction pre generalizing m8_port with
  | nil =>
    show init_serial_loop (some p) (q :: post) m8_port = _
    unfold init_serial_loop
    rw [if_pos hq, if_pos (by rw [hn])]
    rfl
  | cons x rest ih =>
    have hrest : ∀ y ∈ rest, detect_m8_serial_device y ≠ 0 → y.name ≠ p :=
      fun y hy => hpre y (List.mem_cons_of_mem x hy)
    show init_serial_loop (some p) (x :: (rest ++ q :: post)) m8_port = _
    by_cases hm : detect_m8_serial_device x ≠ 0
    · have hx : x.name ≠ p := hpre x (List.mem_cons_self x rest) hm
      have hx2 : ¬ (some p = some x.name) := fun h => hx (Option.some.inj h).symm
      have hf : (x :: rest).filter (fun p => decide (detect_m8_serial_device p ≠ 0)) =
          x :: rest.filter (fun p => decide (detect_m8_serial_device p ≠ 0)) :=
        List.filter_cons_of_pos (by simpa using hm)
      unfold init_serial_loop
      rw [if_pos hm, if_neg hx2, hf]
      simp only [ih (some x) hrest]
      rfl
    · have hf : (x :: rest).filter (fun p => decide (detect_m8_serial_device p ≠ 0)) =
          rest.filter (fun p => decide (detect_m8_serial_device p ≠ 0)) :=
        List.filter_cons_of_neg (by simpa using hm)
      unfold init_serial_loop
      rw [if_neg hm, hf]
      exact ih m8_port hrest

/-- With a handle held, the loop of `check_serial_port` returns 1 when some port
of the list matches and has the held port's name, and `device_found` as it was
otherwise. -/
theorem check_serial_port_loop_held (held : sp_port) (l : List sp_port) (device_found : Int) :
    check_serial_port_loop (some held) l device_found =
      .ok (if ∃ p ∈ l, detect_m8_serial_device p ≠ 0 ∧ p.name = held.name then 1
           else device_found) := by
  induction l generalizing device_found with
  | nil => simp [check_serial_port_loop]
  | cons port rest ih =>
    unfold check_serial_port_loop
    by_cases hm : detect_m8_serial_device port ≠ 0
    · rw [if_pos hm]
      by_cases hname : port.name = held.name
      · simp only [if_pos hname, ih]
        have : ∃ p ∈ port :: rest, detect_m8_serial_device p ≠ 0 ∧ p.name = held.name :=
          ⟨port, List.mem_cons_self _ _, hm, hname⟩
        rw [if_pos this]
        split_ifs <;> rfl
      · simp only [if_neg hname, ih]
        congr 1
        apply if_congr _ rfl rfl
        constructor
        · rintro ⟨p, hp, h1, h2⟩
          exact ⟨p, List.mem_cons_of_mem _ hp, h1, h2⟩
        · rintro ⟨p, hp, h1, h2⟩
          rcases List.mem_cons.1 hp with rfl | hp
          · exact absurd h2 hname
          · exact ⟨p, hp, h1, h2⟩
    · rw [if_neg hm, ih]
      congr 1
      apply if_congr _ rfl rfl
      constructor
      · rintro ⟨p, hp, h1, h2⟩
        exact ⟨p, List.mem_cons_of_mem _ hp, h1, h2⟩
      · rintro ⟨p, hp, h1, h2⟩
        rcases List.mem_cons.1 hp with rfl | hp
        · exact absurd h1 hm
        · exact ⟨p, hp, h1, h2⟩


/-- The configuration sequence returns 1 only when the open and all five
settings returned `SP_OK`. -/
theorem open_and_configure_value (tr : Transport) (port : sp_port) (pre : List Call)
    (h : (open_and_configure tr port pre).value = 1) :
    tr.sp_open port SP_MODE_READ_WRITE = SP_OK ∧
    tr.sp_set_baudrate port 115200 = SP_OK ∧
    tr.sp_set_bits port 8 = SP_OK ∧
    tr.sp_set_parity port SP_PARITY_NONE = SP_OK ∧
    tr.sp_set_stopbits port 1 = SP_OK ∧
    tr.sp_set_flowcontrol port SP_FLOWCONTROL_NONE = SP_OK := by
  unfold open_and_configure check at h
  simp only [] at h
  split_ifs at h with h1 h2 h3 h4 h5 h6
  all_goals first
    | exact ⟨not_not.1 h1, not_not.1 h2, not_not.1 h3, not_not.1 h4, not_not.1 h5,
        not_not.1 h6⟩
    | exact absurd (show (0 : Int) = 1 from h) (by decide)

/-- From the Closed state, `init_serial` returns 1 only with a port installed
whose open and five settings all returned `SP_OK`. -/
theorem init_serial_success_configured (tr : Transport) (verbose : Int)
    (preferred_device : Option String) (st : State) (r : Ret)
    (hclosed : st.m8_port = none)
    (h : init_serial tr verbose preferred_device st = .ok r) (hv : r.value = 1) :
    ∃ port, r.state.m8_port = some port ∧
      tr.sp_open port SP_MODE_READ_WRITE = SP_OK ∧
      tr.sp_set_baudrate port 115200 = SP_OK ∧
      tr.sp_set_bits port 8 = SP_OK ∧
      tr.sp_set_parity port SP_PARITY_NONE = SP_OK ∧
      tr.sp_set_stopbits port 1 = SP_OK ∧
      tr.sp_set_flowcontrol port SP_FLOWCONTROL_NONE = SP_OK := by
  unfold init_serial at h
  rw [hclosed] at h
  cases hl : tr.sp_list_ports with
  | none =>
    rw [hl] at h
    cases h
  | some port_list =>
    rw [hl] at h
    cases hloop : (init_serial_loop preferred_device port_list none).1 with
    | none =>
      simp only [hloop] at h
      cases h
      exact absurd (show (0 : Int) = 1 from hv) (by decide)
    | some port =>
      simp only [hloop] at h
      cases h
      exact ⟨port, open_and_configure_state _ _ _, open_and_configure_value _ _ _ hv⟩

/-- With a handle held and the enumeration succeeding, `check_serial_port`
returns 1 when some enumerated port matches and has the held port's name, and 0
otherwise; the state is unchanged. -/
theorem check_serial_port_held (tr : Transport) (held : sp_port) (ports : List sp_port)
    (hlist : tr.sp_list_ports = some ports) :
    check_serial_port tr { m8_port := some held } =
      .ok ⟨if ∃ p ∈ ports, detect_m8_serial_device p ≠ 0 ∧ p.name = held.name then 1 else 0,
        { m8_port := some held }, [Call.sp_list_ports, Call.sp_free_port_list]⟩ := by
  unfold check_serial_port
  rw [hlist]
  simp only [check_serial_port_loop_held]

/-- With no handle held, the loop of `check_serial_port` returns `device_found`
as it was when no port of the list matches. -/
theorem check_serial_port_loop_closed_no_match (l : List sp_port) (device_found : Int)
    (hno : ∀ p ∈ l, detect_m8_serial_device p = 0) :
    check_serial_port_loop none l device_found = .ok device_found := by
  induction l with
  | nil => rfl
  | cons port rest ih =>
    unfold check_serial_port_loop
    rw [if_neg (by simp [hno port (List.mem_cons_self _ _)])]
    exact ih (fun p hp => hno p (List.mem_cons_of_mem _ hp))

/-! ## Device matcher -/

/-- C1: `detect_m8_serial_device` returns 1 exactly when the transport kind is
USB, the vendor ID is 0x16C0 and the product ID is 0x048A, and it returns 0 for
every port whose transport is not USB, whatever its IDs. -/
theorem detect_m8_serial_device_iff (port : sp_port) :
    (detect_m8_serial_device port = 1 ↔
      port.transport = sp_transport.SP_TRANSPORT_USB ∧
        port.usb_vid = 0x16C0 ∧ port.usb_pid = 0x048A) ∧
    (port.transport ≠ sp_transport.SP_TRANSPORT_USB → detect_m8_serial_device port = 0) := by
  unfold detect_m8_serial_device
  constructor
  · constructor
    · intro h
      split_ifs at h with h1 h2
      · exact ⟨h1, h2⟩
      · exact absurd h (by decide)
      · exact absurd h (by decide)
    · rintro ⟨h1, h2⟩
      rw [if_pos h1, if_pos h2]
  · intro h
    rw [if_neg h]

/-- C1 at a native port that carries the M8 IDs, and at an M8. -/
theorem detect_m8_serial_device_iff_witness :
    detect_m8_serial_device portNative = 0 ∧ detect_m8_serial_device portA = 1 :=
  ⟨(detect_m8_serial_device_iff portNative).2 (by decide),
   (detect_m8_serial_device_iff portA).1.2 (by decide)⟩

/-! ## Connection slot -/

/-- C9: with a handle held, `init_serial` returns 1, makes no libserialport call
and leaves the state as it is, for every transport, `verbose` and
`preferred_device`; so whenever one `init_serial` leaves a handle installed, the
next one does nothing and reports success. -/
theorem init_serial_held_is_noop (tr : Transport) (verbose : Int)
    (preferred_device : Option String) :
    (∀ port : sp_port,
      init_serial tr verbose preferred_device { m8_port := some port } =
        .ok ⟨1, { m8_port := some port }, []⟩) ∧
    (∀ (tr0 : Transport) (verbose0 : Int) (preferred0 : Option String) (st : State) (r : Ret),
      init_serial tr0 verbose0 preferred0 st = .ok r → r.state.m8_port ≠ none →
        init_serial tr verbose preferred_device r.state = .ok ⟨1, r.state, []⟩) := by
  constructor
  · intro port
    rfl
  · intro tr0 verbose0 preferred0 st r _ hs
    cases hr : r.state.m8_port with
    | none => exact absurd hr hs
    | some port =>
      unfold init_serial
      rw [hr]

/-- C9 after a first `init_serial` that found and opened an M8. -/
theorem init_serial_held_is_noop_witness :
    init_serial (transportOf [] SP_ERR_FAIL writtenAll) 1 (some "/dev/ttyACM1")
        { m8_port := some portA } =
      .ok ⟨1, { m8_port := some portA }, []⟩ :=
  (init_serial_held_is_noop (transportOf [] SP_ERR_FAIL writtenAll) 1 (some "/dev/ttyACM1")).2
    (transportOf [portA] SP_OK writtenAll) 0 none initial_state
    (open_and_configure (transportOf [portA] SP_OK writtenAll) portA
      [Call.sp_list_ports, Call.sp_copy_port portA, Call.sp_free_port_list])
    rfl (by decide)

/-- C10: `close_serial_port` returns 0 and leaves `m8_port` empty in every state;
in the Closed state it makes no libserialport call and changes nothing; and
`m8_port` is empty in the initial state. -/
theorem close_serial_port_always_closed (st : State) :
    (close_serial_port st).value = 0 ∧
    (close_serial_port st).state.m8_port = none ∧
    close_serial_port { m8_port := none } = ⟨0, { m8_port := none }, []⟩ ∧
    initial_state.m8_port = none := by
  refine ⟨?_, ?_, rfl, rfl⟩
  · unfold close_serial_port
    cases st.m8_port <;> rfl
  · unfold close_serial_port
    cases h : st.m8_port with
    | none => exact h
    | some port => rfl

/-! ## Discovery -/

/-- C2, as stated, fails: with the two M8s `portA`, `portB` enumerated in this
order and no preferred device, `init_serial` in the Closed state leaves `portB`
in `m8_port` (and opens it), while the first matching port of the list is
`portA`. -/
theorem init_serial_no_preferred_not_first :
    init_serial (transportOf [portA, portB] SP_OK writtenAll) 0 none initial_state =
      .ok ⟨1, { m8_port := some portB },
        [Call.sp_list_ports, Call.sp_copy_port portA, Call.sp_copy_port portB,
         Call.sp_free_port_list, Call.sp_open portB SP_MODE_READ_WRITE,
         Call.sp_set_baudrate portB 115200, Call.sp_set_bits portB 8,
         Call.sp_set_parity portB SP_PARITY_NONE, Call.sp_set_stopbits portB 1,
         Call.sp_set_flowcontrol portB SP_FLOWCONTROL_NONE]⟩ ∧
    [portA, portB].find? (fun p => decide (detect_m8_serial_device p ≠ 0)) = some portA ∧
    portA ≠ portB := by
  refine ⟨rfl, rfl, by decide⟩

/-- C2, amended: for every enumerated port list with at least one matching port,
`init_serial` called in the Closed state with no preferred device returns, and
the port it leaves in `m8_port` is the last matching port in enumeration order,
whatever the open and configuration steps report. -/
theorem init_serial_no_preferred_installs_last (tr : Transport) (verbose : Int)
    (ports : List sp_port) (st : State)
    (hclosed : st.m8_port = none)
    (hlist : tr.sp_list_ports = some ports)
    (hmatch : ∃ p ∈ ports, detect_m8_serial_device p ≠ 0) :
    ∃ r port, init_serial tr verbose none st = .ok r ∧
      r.state.m8_port = some port ∧
      (ports.filter (fun p => decide (detect_m8_serial_device p ≠ 0))).getLast? = some port := by
  have hloop := init_serial_loop_no_preferred ports none
  have hne : ports.filter (fun p => decide (detect_m8_serial_device p ≠ 0)) ≠ [] := by
    obtain ⟨p, hp, hm⟩ := hmatch
    intro h
    have : p ∈ ports.filter (fun p => decide (detect_m8_serial_device p ≠ 0)) :=
      List.mem_filter.2 ⟨hp, by simpa using hm⟩
    rw [h] at this
    exact absurd this (List.not_mem_nil p)
  cases hlast : (ports.filter (fun p => decide (detect_m8_serial_device p ≠ 0))).getLast? with
  | none => exact absurd (List.getLast?_eq_none_iff.1 hlast) hne
  | some port =>
    rw [hlast] at hloop
    have hloop1 : (init_serial_loop none ports none).1 = some port := hloop
    refine ⟨open_and_configure tr port
      ([Call.sp_list_ports] ++ (init_serial_loop none ports none).2 ++
        [Call.sp_free_port_list]), port, ?_, open_and_configure_state _ _ _, rfl⟩
    unfold init_serial
    rw [hclosed, hlist]
    simp only [hloop1]

/-- C2 amended, at the list `[portA, portFtdi, portB]`: the port installed is
`portB`. -/
theorem init_serial_no_preferred_installs_last_witness :
    ∃ r port, init_serial (transportOf [portA, portFtdi, portB] SP_OK writtenAll) 0 none
        initial_state = .ok r ∧
      r.state.m8_port = some port ∧
      ([portA, portFtdi, portB].filter
        (fun p => decide (detect_m8_serial_device p ≠ 0))).getLast? = some port :=
  init_serial_no_preferred_installs_last (transportOf [portA, portFtdi, portB] SP_OK writtenAll)
    0 [portA, portFtdi, portB] initial_state rfl rfl
    ⟨portA, List.mem_cons_self _ _, by decide⟩

/-- C3: when the enumerated list is `pre ++ q :: post`, where `q` matches and is
named `p` and no matching port of `pre` is named `p`, `init_serial` called in the
Closed state with preferred path `p` returns with `q` in `m8_port`, also when
matching ports precede `q`; the ports copied are the matching ports of `pre` and
then `q`, and the whole result is the same for every `post`. -/
theorem init_serial_preferred_installs_first_exact (tr : Transport) (verbose : Int)
    (p : String) (pre post : List sp_port) (q : sp_port) (st : State)
    (hclosed : st.m8_port = none)
    (hlist : tr.sp_list_ports = some (pre ++ q :: post))
    (hq : detect_m8_serial_device q ≠ 0) (hn : q.name = p)
    (hpre : ∀ x ∈ pre, detect_m8_serial_device x ≠ 0 → x.name ≠ p) :
    ∃ r, init_serial tr verbose (some p) st = .ok r ∧
      r.state.m8_port = some q ∧
      r = open_and_configure tr q
        ([Call.sp_list_ports] ++
          ((pre.filter (fun x => decide (detect_m8_serial_device x ≠ 0))).map Call.sp_copy_port ++
            [Call.sp_copy_port q]) ++ [Call.sp_free_port_list]) := by
  refine ⟨_, ?_, open_and_configure_state _ _ _, rfl⟩
  unfold init_serial
  rw [hclosed, hlist]
  simp only [init_serial_loop_preferred p pre post q none hq hn hpre]

/-- C3 at the list `[portA, portB, portA]` with preferred path `/dev/ttyACM1`:
`portB` is installed although `portA` precedes it, and nothing after `portB` is
copied. -/
theorem init_serial_preferred_installs_first_exact_witness :
    ∃ r, init_serial (transportOf ([portA] ++ portB :: [portA]) SP_OK writtenAll) 0
        (some "/dev/ttyACM1") initial_state = .ok r ∧
      r.state.m8_port = some portB ∧
      r = open_and_configure (transportOf ([portA] ++ portB :: [portA]) SP_OK writtenAll) portB
        ([Call.sp_list_ports] ++
          (([portA].filter (fun x => decide (detect_m8_serial_device x ≠ 0))).map
              Call.sp_copy_port ++ [Call.sp_copy_port portB]) ++ [Call.sp_free_port_list]) :=
  init_serial_preferred_installs_first_exact
    (transportOf ([portA] ++ portB :: [portA]) SP_OK writtenAll) 0 "/dev/ttyACM1"
    [portA] [portA] portB initial_state rfl rfl (by decide) rfl (by decide)

/-- C5, the code at the failing input: with one M8 enumerated and `sp_open`
answering `SP_ERR_FAIL`, `init_serial` called in the Closed state returns 0 and
leaves the unopened port in `m8_port`; the next `init_serial` then returns 1
without any libserialport call. -/
theorem init_serial_failed_open_leaves_handle :
    (transportOf [portA] SP_ERR_FAIL writtenAll).sp_open portA SP_MODE_READ_WRITE ≠ SP_OK ∧
    init_serial (transportOf [portA] SP_ERR_FAIL writtenAll) 0 none initial_state =
      .ok ⟨0, { m8_port := some portA },
        [Call.sp_list_ports, Call.sp_copy_port portA, Call.sp_free_port_list,
         Call.sp_open portA SP_MODE_READ_WRITE]⟩ ∧
    init_serial (transportOf [portA] SP_ERR_FAIL writtenAll) 0 none { m8_port := some portA } =
      .ok ⟨1, { m8_port := some portA }, []⟩ := by
  refine ⟨by decide, rfl, rfl⟩

/-- C8, the code at the failing input: with no handle held and one M8
enumerated, `check_serial_port` reaches `strcmp` with the name of the `NULL`
port and does not return 0. -/
theorem check_serial_port_closed_with_match_faults :
    check_serial_port (transportOf [portA] SP_OK writtenAll) initial_state =
      .error Fault.strcmp_null := by
  rfl

/-! ## Command frames -/

/-- C4, as stated, fails: when the transport reports 0 bytes for the Enable
frame, `enable_and_reset_display` returns 0 after that single write and the Reset
frame is never handed to the transport, although a `reset_display` in the same
state would have been written and would have returned 1. -/
theorem enable_and_reset_display_stops_after_failed_enable :
    enable_and_reset_display (transportOf [portA] SP_OK writtenButEnable)
        { m8_port := some portA } =
      ⟨0, { m8_port := some portA }, [Call.sp_blocking_write (some portA) ['E'.toNat] 1 5]⟩ ∧
    reset_display (transportOf [portA] SP_OK writtenButEnable) { m8_port := some portA } =
      ⟨1, { m8_port := some portA }, [Call.sp_blocking_write (some portA) ['R'.toNat] 1 5]⟩ := by
  constructor <;> rfl

/-- C4, amended: `enable_and_reset_display` writes the Enable frame `['E']`; if
the transport reports exactly 1 byte written it then writes the Reset frame
`['R']` and returns 1 when that write reports exactly 1 byte and 0 otherwise; if
the Enable write reports any other count it returns 0 and writes nothing more.
The state is unchanged in all cases. -/
theorem enable_and_reset_display_spec (tr : Transport) (st : State) :
    enable_and_reset_display tr st =
      if tr.sp_blocking_write st.m8_port ['E'.toNat] 1 5 = 1 then
        ⟨if tr.sp_blocking_write st.m8_port ['R'.toNat] 1 5 = 1 then 1 else 0, st,
          [Call.sp_blocking_write st.m8_port ['E'.toNat] 1 5,
           Call.sp_blocking_write st.m8_port ['R'.toNat] 1 5]⟩
      else ⟨0, st, [Call.sp_blocking_write st.m8_port ['E'.toNat] 1 5]⟩ := by
  unfold enable_and_reset_display reset_display
  by_cases hE : tr.sp_blocking_write st.m8_port [69] 1 5 = 1
  · by_cases hR : tr.sp_blocking_write st.m8_port [82] 1 5 = 1
    · simp [hE, hR]
    · simp [hE, hR]
  · simp [hE]

/-- C6: for `note` and `velocity` in 0..255, `send_msg_keyjazz` hands the
transport the one frame `['K', note, min velocity 127]` with length 3, leaves the
state unchanged, and returns 1 when the transport (whose report is an `int`)
reports exactly 3 bytes written and -1 for every other report. -/
theorem send_msg_keyjazz_spec (tr : Transport) (st : State) (note velocity : Nat)
    (hn : note < 256) (hv : velocity < 256)
    (hr : is_int (tr.sp_blocking_write st.m8_port ['K'.toNat, note, min velocity 127] 3 5)) :
    (send_msg_keyjazz tr st note velocity).calls =
        [Call.sp_blocking_write st.m8_port ['K'.toNat, note, min velocity 127] 3 5] ∧
    (send_msg_keyjazz tr st note velocity).state = st ∧
    (send_msg_keyjazz tr st note velocity).value =
      if tr.sp_blocking_write st.m8_port ['K'.toNat, note, min velocity 127] 3 5 = 3
      then 1 else -1 := by
  have hnote : note % 256 = note := Nat.mod_eq_of_lt hn
  have hvel : (if velocity % 256 > 0x7F then 0x7F else velocity % 256) = min velocity 127 := by
    rw [Nat.mod_eq_of_lt hv]
    split_ifs with h <;> omega
  have hsz := size_t_of_int_eq_iff _ 3 hr (by decide) (by decide)
  unfold send_msg_keyjazz
  simp only [hnote, hvel]
  by_cases h3 : tr.sp_blocking_write st.m8_port [75, note, min velocity 127] 3 5 = 3
  · have h3s : size_t_of_int 3 = 3 := by
      unfold size_t_of_int
      norm_num
    simp [h3, h3s]
  · have h3s : ¬ size_t_of_int
        (tr.sp_blocking_write st.m8_port [75, note, min velocity 127] 3 5) = 3 :=
      fun h => h3 (hsz.1 h)
    simp [h3, h3s]

/-- C6 at note 60 with velocity 200 on an open port that takes the whole frame:
the frame sent is `[75, 60, 127]` and the call returns 1. -/
theorem send_msg_keyjazz_spec_witness :
    (60 < 256 ∧ 200 < 256) ∧
    (send_msg_keyjazz (transportOf [portA] SP_OK writtenAll)
        { m8_port := some portA } 60 200).calls =
      [Call.sp_blocking_write (some portA) [75, 60, 127] 3 5] ∧
    (send_msg_keyjazz (transportOf [portA] SP_OK writtenAll)
        { m8_port := some portA } 60 200).value = 1 :=
  have h := send_msg_keyjazz_spec (transportOf [portA] SP_OK writtenAll)
    { m8_port := some portA } 60 200 (by decide) (by decide) (by decide)
  ⟨by decide, h.1, h.2.2⟩

/-! ## Inbound reader -/

/-- C7, as stated, fails: in the Closed state `serial_read` passes the `NULL`
port to `sp_nonblocking_read` and returns its answer, which is `SP_ERR_ARG`
(-1) for a transport that rejects a `NULL` port, not 0. -/
theorem serial_read_closed_returns_transport_error :
    serial_read (transportOf [portA] SP_OK writtenAll) initial_state 64 =
      ⟨-1, initial_state, [Call.sp_nonblocking_read none 64]⟩ := by
  rfl

/-- C7, amended: `serial_read` makes the single call
`sp_nonblocking_read(m8_port, serial_buf, count)` and returns exactly what the
transport reports for it, in the Closed state as well (where the port argument is
`NULL`), leaving the state unchanged; so it returns 0 exactly when the transport
reports 0, which is the case on an open connection with no bytes available, and
it returns the transport's negative code when the transport reports one. -/
theorem serial_read_returns_transport_report (tr : Transport) (st : State) (count : Int) :
    (serial_read tr st count).value = tr.sp_nonblocking_read st.m8_port count ∧
    (serial_read tr st count).state = st ∧
    (serial_read tr st count).calls = [Call.sp_nonblocking_read st.m8_port count] ∧
    ((serial_read tr st count).value = 0 ↔ tr.sp_nonblocking_read st.m8_port count = 0) ∧
    ((serial_read tr st count).value < 0 ↔ tr.sp_nonblocking_read st.m8_port count < 0) := by
  refine ⟨rfl, rfl, rfl, Iff.rfl, Iff.rfl⟩

end Serial
